import Mathlib

/-!
Verification of the kiln heat-loss / outlier-repair pipeline
(`heat_simulation_IQR.py`).

The script aggregates per-location surface-temperature readings, computes
radiative and convective heat loss per location, flags high/low outliers of
the per-location total loss with the IQR method, replaces high-outlier
temperatures by the median of the non-outlier temperatures, recomputes the
loss, and derives yearly savings net of a brick repair cost.

The embedding below follows the source line by line: pandas column
operations become `List.map`/`List.zipWith`, the quantile with linear
interpolation becomes `quantile`, the label-indexed loops become
`List.range`-based maps and filters, and Python floats become `ℝ`.
The script raises no exceptions anywhere; the `Except` wrappers
`aggTempsE` and `Kiln.convectionE` record that absence of an error path,
and are compared against spec-modelled variants that do raise.
-/

namespace HeatSim

noncomputable section

/-- Temperature unit tag of the input (sidebar selectbox). -/
inductive TempUnit where
  | celsius
  | kelvin

/-- Unit conversion used for the ambient temperature and the readings:
`x if unit == Kelvin else x + 273`. -/
def convTemp (u : TempUnit) (t : ℝ) : ℝ :=
  match u with
  | .kelvin => t
  | .celsius => t + 273

/-- Global constant of the script: `5.67 * 10 ** -8`. -/
def STEFAN_BOLTZMANN_CONSTANT : ℝ := 5.67 * 10 ^ (-8 : ℤ)

/-- The kiln state built by `Kiln.__init__`: configuration values plus the
aggregated per-location temperatures (Kelvin), one per input row. -/
structure Kiln where
  diameter : ℝ
  ambient_velocity : ℝ
  ambient_temp : ℝ
  emissivity : ℝ
  interval : ℕ
  temps : List ℝ

/-- Column count of the input matrix, `len(df.columns)`; the data frame is
rectangular, so the first row determines it. -/
def columnsCount (df : List (List ℝ)) : ℕ := (df.headD []).length

/-- Row-wise aggregation of `Kiln.__init__`: average of the readings in each
row (`df.sum(axis=1) / columns_count`), converted to Kelvin. -/
def aggTemps (u : TempUnit) (df : List (List ℝ)) : List ℝ :=
  df.map (fun row => convTemp u (row.sum / (columnsCount df : ℝ)))

/-- The `Kiln.__init__` constructor: stores the configuration, converts the
ambient temperature to Kelvin, and aggregates the readings. -/
def Kiln.make (diameter ambient_velocity ambient_temp : ℝ) (u : TempUnit)
    (emissivity : ℝ) (interval : ℕ) (df : List (List ℝ)) : Kiln :=
  ⟨diameter, ambient_velocity, convTemp u ambient_temp, emissivity, interval,
    aggTemps u df⟩

/-- `self.section_area = math.pi * diameter * interval`. -/
def Kiln.section_area (k : Kiln) : ℝ := Real.pi * k.diameter * (k.interval : ℝ)

/-- Radiation heat loss at one location (`Kiln.radiation`, applied
elementwise to a temperature column). -/
def Kiln.radiationAt (k : Kiln) (T : ℝ) : ℝ :=
  k.emissivity * k.section_area * STEFAN_BOLTZMANN_CONSTANT *
    (T ^ 4 - k.ambient_temp ^ 4)

/-- Convection heat loss at one location (`Kiln.convection`, applied
elementwise): natural convection below 3 m/s ambient velocity, forced
convection otherwise. -/
def Kiln.convectionAt (k : Kiln) (T : ℝ) : ℝ :=
  if k.ambient_velocity < 3 then
    80.33 * (((T + k.ambient_temp) / 2) ^ (-0.724 : ℝ) *
      (T - k.ambient_temp) ^ (1.333 : ℝ)) * k.section_area
  else
    28.03 * (T * k.ambient_temp) ^ (-0.351 : ℝ) *
      k.ambient_velocity ^ (0.805 : ℝ) * k.diameter ^ (-0.195 : ℝ) *
      (T - k.ambient_temp) * k.section_area

/-- Error taxonomy of the spec (section 7). The script itself never raises:
these constructors only appear in the spec-modelled variants. -/
inductive PipeError where
  | configError
  | domainError

/-- The reading-aggregation step with its (absent) failure path made
explicit: the source performs no validation whatsoever in `Kiln.__init__`,
so the result is always `ok`. -/
def aggTempsE (u : TempUnit) (df : List (List ℝ)) : Except PipeError (List ℝ) :=
  Except.ok (aggTemps u df)

/-- Modelled from the spec: the spec (sections 4.2 and 7) demands that the
aggregation fail with `ConfigError` when the column count is zero, a check
that is absent from the source. Stated here for comparison with
`aggTempsE`. -/
def aggTempsSpec (u : TempUnit) (df : List (List ℝ)) : Except PipeError (List ℝ) :=
  if columnsCount df = 0 then Except.error PipeError.configError
  else Except.ok (aggTemps u df)

/-- Convection with its (absent) failure path made explicit: the source
evaluates the formula unconditionally, for any temperature, so the result is
always `ok`. On `T < Tambient` the original silently yields NaN from the
fractional power of a negative base. -/
def Kiln.convectionE (k : Kiln) (T : ℝ) : Except PipeError ℝ :=
  Except.ok (k.convectionAt T)

/-- Modelled from the spec: the spec (sections 4.1 and 7) demands a
`DomainError` when `T < Tambient` feeds the fractional exponent of the
natural-convection branch, a check that is absent from the source. Stated
here for comparison with `Kiln.convectionE`. -/
def Kiln.convectionSpec (k : Kiln) (T : ℝ) : Except PipeError ℝ :=
  if T < k.ambient_temp ∧ k.ambient_velocity < 3 then
    Except.error PipeError.domainError
  else Except.ok (k.convectionAt T)

/-- Linear interpolation of a sorted value list `s` at virtual position
`h`: with `i = floor h`, the value is `s[i] + (h - i) * (s[i+1] - s[i])`,
where a neighbour past the end falls back to `s[i]` itself (as in numpy,
where the upper index is clamped; for the positions used here the fraction
vanishes in that case). -/
def interpolate (s : List ℝ) (h : ℚ) : ℝ :=
  let i : ℕ := (⌊h⌋).toNat
  s.getD i 0 + ((h - (i : ℚ) : ℚ) : ℝ) * (s.getD (i + 1) (s.getD i 0) - s.getD i 0)

/-- Quantile with the linear interpolation convention of
`pandas.Series.quantile` / `numpy.percentile(..., interpolation="linear")`:
sort, take the virtual position `(n - 1) * q`, and interpolate linearly
between the two neighbouring order statistics. -/
def quantile (xs : List ℝ) (q : ℚ) : ℝ :=
  interpolate (List.insertionSort (· ≤ ·) xs) (((xs.length : ℚ) - 1) * q)

/-- `pandas.Series.median`, the 0.5 quantile. -/
def median (xs : List ℝ) : ℝ := quantile xs (1 / 2)

/-- `upper_whisker = Q3 + 1.5 * IQR`. -/
def upperWhisker (losses : List ℝ) : ℝ :=
  quantile losses (3 / 4) + 1.5 * (quantile losses (3 / 4) - quantile losses (1 / 4))

/-- `lower_whisker = Q1 - 1.5 * IQR`. -/
def lowerWhisker (losses : List ℝ) : ℝ :=
  quantile losses (1 / 4) - 1.5 * (quantile losses (3 / 4) - quantile losses (1 / 4))

/-- Indices whose total loss exceeds the upper whisker (the
`for index, loss in ...iteritems()` loop). -/
def highOutliers (losses : List ℝ) : List ℕ :=
  (List.range losses.length).filter (fun i => losses.getD i 0 > upperWhisker losses)

/-- Indices whose total loss is below the lower whisker. -/
def lowOutliers (losses : List ℝ) : List ℕ :=
  (List.range losses.length).filter (fun i => losses.getD i 0 < lowerWhisker losses)

/-- `df["temp"].drop(high_outliers).drop(low_outliers).median()`: the median
of the temperatures at indices in neither outlier set. -/
def mediantemp (temps : List ℝ) (high low : List ℕ) : ℝ :=
  median (((List.range temps.length).filter
    (fun i => i ∉ high ∧ i ∉ low)).map (fun i => temps.getD i 0))

/-- `df["new temp"]`: a copy of the temperatures with every high-outlier
index overwritten by the median `m`. -/
def newTemps (temps : List ℝ) (high : List ℕ) (m : ℝ) : List ℝ :=
  (List.range temps.length).map (fun i => if i ∈ high then m else temps.getD i 0)

/-- Result of the savings branch (lines 136-182): either the success summary
with its four figures, or the warning branch, which computes nothing (the
script only prints that something is wrong). -/
inductive RepairOutcome where
  | success (savings money_saved_per_year repair_cost savings_per_year_rupees : ℝ)
  | inconsistent

/-- The repair cost figure carried by an outcome, if one was computed. -/
def RepairOutcome.repairCost : RepairOutcome → Option ℝ
  | .success _ _ r _ => some r
  | .inconsistent => none

/-- The savings branch of the script: annualised money saved, brick repair
cost (note the source uses the constant `3.14`, not `math.pi`, here), and
the net figure; the warning branch when savings are not positive. -/
def repairOutcome (k : Kiln) (high_count : ℕ) (clinker total_loss new_total_loss : ℝ) :
    RepairOutcome :=
  let savings := total_loss - new_total_loss
  if 0 < savings then
    let savings_per_hour := savings * clinker
    let working_hours_per_year : ℝ := 330 * 24
    let savings_per_year := savings_per_hour * working_hours_per_year
    let coal_saved_per_year := savings_per_year / 4500
    let coal_saved_per_year_tons := coal_saved_per_year / 1000
    let money_saved_per_year := coal_saved_per_year_tons * 4500
    let internal_diameter := k.diameter * 1000 - 2 * 16
    let bricks_per_ring : ℤ := ⌊3.14 * (internal_diameter - 220) / 71.5⌋
    let bricks_per_meter : ℤ := bricks_per_ring * 5
    let bricks_damaged_count : ℤ := bricks_per_meter * (high_count : ℤ)
    let repair_cost : ℝ := (bricks_damaged_count : ℝ) * 100
    RepairOutcome.success savings money_saved_per_year repair_cost
      (money_saved_per_year - repair_cost)
  else RepairOutcome.inconsistent

/-- The repair-cost formula exactly as the spec states it (section 4.4),
with the exact constant pi in place of the source constant `3.14`. Stated
for comparison with the cost computed by `repairOutcome`. -/
def repairCostSpec (k : Kiln) (high_count : ℕ) : ℝ :=
  ((⌊Real.pi * ((k.diameter * 1000 - 2 * 16) - 220) / 71.5⌋ * 5 * (high_count : ℤ) : ℤ) : ℝ) * 100

/-- Everything computed by the repair block (lines 115-134 plus the savings
branch). -/
structure RepairData where
  mediantemp : ℝ
  new_temps : List ℝ
  new_radiation : List ℝ
  new_convection : List ℝ
  new_losses : List ℝ
  new_total_loss : ℝ
  outcome : RepairOutcome

/-- Everything computed by the main block of the script after the upload:
the annotated series, the outlier index sets, and, when high outliers exist,
the repair data. -/
structure Analysis where
  temps : List ℝ
  radiation : List ℝ
  convection : List ℝ
  losses : List ℝ
  total_loss : ℝ
  high_outliers : List ℕ
  low_outliers : List ℕ
  repair : Option RepairData

/-- The pipeline of the script (lines 82-182): per-location radiation,
convection and total loss (normalised by clinker production), IQR outlier
detection, and, when high outliers exist, median repair, recomputation and
the savings branch. It is a total function: no branch aborts. -/
def analyze (k : Kiln) (clinker : ℝ) : Analysis :=
  let radiation := k.temps.map (fun T => k.radiationAt T / clinker)
  let convection := k.temps.map (fun T => k.convectionAt T / clinker)
  let losses := List.zipWith (fun a b => a + b) radiation convection
  let total_loss := losses.sum
  let high := highOutliers losses
  let low := lowOutliers losses
  let repair : Option RepairData :=
    if 0 < high.length then
      let m := mediantemp k.temps high low
      let nt := newTemps k.temps high m
      let nr := nt.map (fun T => k.radiationAt T / clinker)
      let nc := nt.map (fun T => k.convectionAt T / clinker)
      let nl := List.zipWith (fun a b => a + b) nr nc
      some ⟨m, nt, nr, nc, nl, nl.sum, repairOutcome k high.length clinker total_loss nl.sum⟩
    else none
  ⟨k.temps, radiation, convection, losses, total_loss, high, low, repair⟩

/-- The per-location loss profile with the common positive factor
`section_area / clinker` stripped: radiation plus natural convection per
unit of section area, at ambient temperature 302 K. Used to reason about
the two concrete scenarios below. -/
def gfun (e T : ℝ) : ℝ :=
  e * STEFAN_BOLTZMANN_CONSTANT * (T ^ 4 - 302 ^ 4) +
    80.33 * (((T + 302) / 2) ^ (-0.724 : ℝ) * (T - 302) ^ (1.333 : ℝ))

/-- The input matrix of the scenario in the spec (section 8): five
locations, one reading each. -/
def df5 : List (List ℝ) := [[400], [405], [410], [500], [415]]

/-- The kiln of the spec scenario with emissivity `e`: diameter 4.75 m,
ambient velocity 1 m/s, ambient temperature 302 K, interval 1 m, readings
`df5`. -/
def kilnP (e : ℝ) : Kiln := Kiln.make 4.75 1 302 TempUnit.kelvin e 1 df5

/-- The kiln of the spec scenario: emissivity 0.77. -/
def kiln6 : Kiln := kilnP 0.77

/-- The same kiln with emissivity 0 (the slider allows it): radiation
vanishes, so the savings shrink while the brick repair cost stays put. -/
def kiln10 : Kiln := kilnP 0

/-- The common positive factor `section_area / clinker_production` of every
per-location loss of the scenario kilns. -/
def scale : ℝ := Real.pi * 4.75 / 290000

/-- A kiln with diameter 4.85 m, where `floor(3.14 * x / 71.5)` and
`floor(pi * x / 71.5)` differ (201 against 202). -/
def kilnC1 : Kiln := ⟨4.85, 1, 302, 0.77, 1, []⟩

/-- A throwaway kiln used to instantiate hypothesis-bearing theorems. -/
def kiln0 : Kiln := ⟨1, 1, 302, 0, 1, []⟩

/-- The repair data of an analysis, with a dummy fallback when no repair
was performed. -/
def repairD (a : Analysis) : RepairData :=
  a.repair.getD ⟨0, [], [], [], [], 0, RepairOutcome.inconsistent⟩

end

/-! ## Bounds on real powers with rational exponents

A bound `a ≤ x ^ (p / q)` for nonnegative rationals reduces to the integer
power comparison `a ^ q ≤ x ^ p`, which `norm_num` settles exactly. -/

theorem le_rpow_of_pow_le {a x : ℝ} {p q : ℕ} (ha : 0 ≤ a) (hx : 0 ≤ x) (hq : 0 < q)
    (h : a ^ q ≤ x ^ p) : a ≤ x ^ ((p : ℝ) / (q : ℝ)) := by
  have hq' : (0 : ℝ) < (q : ℝ) := by exact_mod_cast hq
  have h1 : ((a ^ q : ℝ)) ^ ((q : ℝ)⁻¹) ≤ ((x ^ p : ℝ)) ^ ((q : ℝ)⁻¹) :=
    Real.rpow_le_rpow (by positivity) h (by positivity)
  rw [← Real.rpow_natCast a q, ← Real.rpow_natCast x p, ← Real.rpow_mul ha,
    ← Real.rpow_mul hx, mul_inv_cancel₀ (ne_of_gt hq'), Real.rpow_one] at h1
  rw [div_eq_mul_inv]
  exact h1

theorem rpow_le_of_pow_le {a x : ℝ} {p q : ℕ} (ha : 0 ≤ a) (hx : 0 ≤ x) (hq : 0 < q)
    (h : x ^ p ≤ a ^ q) : x ^ ((p : ℝ) / (q : ℝ)) ≤ a := by
  have hq' : (0 : ℝ) < (q : ℝ) := by exact_mod_cast hq
  have h1 : ((x ^ p : ℝ)) ^ ((q : ℝ)⁻¹) ≤ ((a ^ q : ℝ)) ^ ((q : ℝ)⁻¹) :=
    Real.rpow_le_rpow (by positivity) h (by positivity)
  rw [← Real.rpow_natCast a q, ← Real.rpow_natCast x p, ← Real.rpow_mul hx,
    ← Real.rpow_mul ha, mul_inv_cancel₀ (ne_of_gt hq'), Real.rpow_one] at h1
  rw [div_eq_mul_inv]
  exact h1

theorem le_rpow_1333 {a x : ℝ} (ha : 0 ≤ a) (hx : 0 ≤ x)
    (h : a ^ (1000 : ℕ) ≤ x ^ (1333 : ℕ)) : a ≤ x ^ (1.333 : ℝ) := by
  have e : (1.333 : ℝ) = ((1333 : ℕ) : ℝ) / ((1000 : ℕ) : ℝ) := by norm_num
  rw [e]
  exact le_rpow_of_pow_le ha hx (by norm_num) h

theorem rpow_1333_le {a x : ℝ} (ha : 0 ≤ a) (hx : 0 ≤ x)
    (h : x ^ (1333 : ℕ) ≤ a ^ (1000 : ℕ)) : x ^ (1.333 : ℝ) ≤ a := by
  have e : (1.333 : ℝ) = ((1333 : ℕ) : ℝ) / ((1000 : ℕ) : ℝ) := by norm_num
  rw [e]
  exact rpow_le_of_pow_le ha hx (by norm_num) h

theorem le_rpow_0724 {a x : ℝ} (ha : 0 ≤ a) (hx : 0 ≤ x)
    (h : a ^ (250 : ℕ) ≤ x ^ (181 : ℕ)) : a ≤ x ^ (0.724 : ℝ) := by
  have e : (0.724 : ℝ) = ((181 : ℕ) : ℝ) / ((250 : ℕ) : ℝ) := by norm_num
  rw [e]
  exact le_rpow_of_pow_le ha hx (by norm_num) h

theorem rpow_0724_le {a x : ℝ} (ha : 0 ≤ a) (hx : 0 ≤ x)
    (h : x ^ (181 : ℕ) ≤ a ^ (250 : ℕ)) : x ^ (0.724 : ℝ) ≤ a := by
  have e : (0.724 : ℝ) = ((181 : ℕ) : ℝ) / ((250 : ℕ) : ℝ) := by norm_num
  rw [e]
  exact rpow_le_of_pow_le ha hx (by norm_num) h

/-- Lower bound for the natural-convection core from a lower bound on the
temperature-difference power and an upper bound on the mean power. -/
theorem core_lb {d m a b : ℝ} (hd : 0 ≤ d) (hm : 0 < m)
    (h1 : a ≤ d ^ (1.333 : ℝ)) (h2 : m ^ (0.724 : ℝ) ≤ b) :
    a / b ≤ m ^ (-0.724 : ℝ) * d ^ (1.333 : ℝ) := by
  have hmp : 0 < m ^ (0.724 : ℝ) := Real.rpow_pos_of_pos hm _
  have e : m ^ (-0.724 : ℝ) * d ^ (1.333 : ℝ) = d ^ (1.333 : ℝ) / m ^ (0.724 : ℝ) := by
    rw [show (-0.724 : ℝ) = -(0.724 : ℝ) by norm_num, Real.rpow_neg hm.le]
    ring
  rw [e]
  exact div_le_div₀ (Real.rpow_nonneg hd _) h1 hmp h2

/-- Upper bound for the natural-convection core from an upper bound on the
temperature-difference power and a lower bound on the mean power. -/
theorem core_ub {d m a b : ℝ} (ha : 0 ≤ a) (hm : 0 < m) (hb : 0 < b)
    (h1 : d ^ (1.333 : ℝ) ≤ a) (h2 : b ≤ m ^ (0.724 : ℝ)) :
    m ^ (-0.724 : ℝ) * d ^ (1.333 : ℝ) ≤ a / b := by
  have hmp : 0 < m ^ (0.724 : ℝ) := Real.rpow_pos_of_pos hm _
  have e : m ^ (-0.724 : ℝ) * d ^ (1.333 : ℝ) = d ^ (1.333 : ℝ) / m ^ (0.724 : ℝ) := by
    rw [show (-0.724 : ℝ) = -(0.724 : ℝ) by norm_num, Real.rpow_neg hm.le]
    ring
  rw [e]
  exact div_le_div₀ ha h1 hb h2

/-! Numeric bounds for the convection core at the concrete scenario
temperatures (ambient 302 K): the core at temperature `T` is
`m ^ (-0.724) * d ^ 1.333` with `d = T - 302` and `m = (T + 302) / 2`. -/

theorem core400_lb : (451 : ℝ) / 69.75 ≤ (351 : ℝ) ^ (-0.724 : ℝ) * (98 : ℝ) ^ (1.333 : ℝ) :=
  core_lb (by norm_num) (by norm_num)
    (le_rpow_1333 (by norm_num) (by norm_num) (by norm_num))
    (rpow_0724_le (by norm_num) (by norm_num) (by norm_num))

theorem core405_lb : (481.5 : ℝ) / 70.2 ≤ (353.5 : ℝ) ^ (-0.724 : ℝ) * (103 : ℝ) ^ (1.333 : ℝ) :=
  core_lb (by norm_num) (by norm_num)
    (le_rpow_1333 (by norm_num) (by norm_num) (by norm_num))
    (rpow_0724_le (by norm_num) (by norm_num) (by norm_num))

theorem core405_ub : (353.5 : ℝ) ^ (-0.724 : ℝ) * (103 : ℝ) ^ (1.333 : ℝ) ≤ (483 : ℝ) / 69.9 :=
  core_ub (by norm_num) (by norm_num) (by norm_num)
    (rpow_1333_le (by norm_num) (by norm_num) (by norm_num))
    (le_rpow_0724 (by norm_num) (by norm_num) (by norm_num))

theorem core415_lb : (545 : ℝ) / 70.8 ≤ (358.5 : ℝ) ^ (-0.724 : ℝ) * (113 : ℝ) ^ (1.333 : ℝ) :=
  core_lb (by norm_num) (by norm_num)
    (le_rpow_1333 (by norm_num) (by norm_num) (by norm_num))
    (rpow_0724_le (by norm_num) (by norm_num) (by norm_num))

theorem core415_ub : (358.5 : ℝ) ^ (-0.724 : ℝ) * (113 : ℝ) ^ (1.333 : ℝ) ≤ (547 : ℝ) / 70.4 :=
  core_ub (by norm_num) (by norm_num) (by norm_num)
    (rpow_1333_le (by norm_num) (by norm_num) (by norm_num))
    (le_rpow_0724 (by norm_num) (by norm_num) (by norm_num))

theorem core500_lb : (1151 : ℝ) / 77 ≤ (401 : ℝ) ^ (-0.724 : ℝ) * (198 : ℝ) ^ (1.333 : ℝ) :=
  core_lb (by norm_num) (by norm_num)
    (le_rpow_1333 (by norm_num) (by norm_num) (by norm_num))
    (rpow_0724_le (by norm_num) (by norm_num) (by norm_num))

theorem core500_ub : (401 : ℝ) ^ (-0.724 : ℝ) * (198 : ℝ) ^ (1.333 : ℝ) ≤ (1153 : ℝ) / 76.5 :=
  core_ub (by norm_num) (by norm_num) (by norm_num)
    (rpow_1333_le (by norm_num) (by norm_num) (by norm_num))
    (le_rpow_0724 (by norm_num) (by norm_num) (by norm_num))

theorem core4075_lb :
    (496 : ℝ) / 70.3 ≤ (354.75 : ℝ) ^ (-0.724 : ℝ) * (105.5 : ℝ) ^ (1.333 : ℝ) :=
  core_lb (by norm_num) (by norm_num)
    (le_rpow_1333 (by norm_num) (by norm_num) (by norm_num))
    (rpow_0724_le (by norm_num) (by norm_num) (by norm_num))

/-- Strict monotonicity of the natural-convection core in the temperature,
above ambient: the growth of `(T - Ta) ^ 1.333` beats the decay of
`((T + Ta) / 2) ^ (-0.724)`. -/
theorem core_strict_mono (Ta : ℝ) {a b : ℝ} (hTa : 0 < Ta) (h1 : Ta < a) (h2 : a < b) :
    ((a + Ta) / 2) ^ (-0.724 : ℝ) * (a - Ta) ^ (1.333 : ℝ) <
      ((b + Ta) / 2) ^ (-0.724 : ℝ) * (b - Ta) ^ (1.333 : ℝ) := by
  have hd1 : (0 : ℝ) < a - Ta := by linarith
  have hd2 : (0 : ℝ) < b - Ta := by linarith
  have hm1 : (0 : ℝ) < (a + Ta) / 2 := by linarith
  have hm2 : (0 : ℝ) < (b + Ta) / 2 := by linarith
  have hx0 : 0 < (a - Ta) / (b - Ta) := div_pos hd1 hd2
  have hx1 : (a - Ta) / (b - Ta) < 1 := by
    rw [div_lt_one hd2]; linarith
  have hx : (a - Ta) / (b - Ta) < ((a + Ta) / 2) / ((b + Ta) / 2) := by
    rw [div_lt_div_iff₀ hd2 hm2]; nlinarith
  have s1 : ((a - Ta) / (b - Ta)) ^ (1.333 : ℝ) < ((a - Ta) / (b - Ta)) ^ (0.724 : ℝ) :=
    Real.rpow_lt_rpow_of_exponent_gt hx0 hx1 (by norm_num)
  have s2 : ((a - Ta) / (b - Ta)) ^ (0.724 : ℝ) <
      (((a + Ta) / 2) / ((b + Ta) / 2)) ^ (0.724 : ℝ) :=
    Real.rpow_lt_rpow hx0.le hx (by norm_num)
  have s3 := s1.trans s2
  rw [Real.div_rpow hd1.le hd2.le, Real.div_rpow hm1.le hm2.le] at s3
  have p2 : 0 < (b - Ta) ^ (1.333 : ℝ) := Real.rpow_pos_of_pos hd2 _
  have pm1 : 0 < ((a + Ta) / 2) ^ (0.724 : ℝ) := Real.rpow_pos_of_pos hm1 _
  have pm2 : 0 < ((b + Ta) / 2) ^ (0.724 : ℝ) := Real.rpow_pos_of_pos hm2 _
  rw [div_lt_div_iff₀ p2 pm2] at s3
  rw [show (-0.724 : ℝ) = -(0.724 : ℝ) by norm_num, Real.rpow_neg hm1.le,
    Real.rpow_neg hm2.le, inv_mul_eq_div, inv_mul_eq_div, div_lt_div_iff₀ pm1 pm2]
  nlinarith [s3]

theorem stefan_pos : 0 < STEFAN_BOLTZMANN_CONSTANT := by
  unfold STEFAN_BOLTZMANN_CONSTANT
  positivity

/-- The loss profile `gfun` is strictly increasing in the temperature above
ambient, for any nonnegative emissivity. -/
theorem gfun_strict_mono {e a b : ℝ} (he : 0 ≤ e) (ha : 302 < a) (hab : a < b) :
    gfun e a < gfun e b := by
  unfold gfun
  have hc := core_strict_mono 302 (by norm_num) ha hab
  have hr : a ^ 4 ≤ b ^ 4 :=
    pow_le_pow_left₀ (by linarith) hab.le 4
  have hs : 0 ≤ e * STEFAN_BOLTZMANN_CONSTANT := mul_nonneg he stefan_pos.le
  nlinarith [mul_le_mul_of_nonneg_left hr hs]

/-! ## Properties of the quantile -/

theorem sortedList_length (xs : List ℝ) :
    (List.insertionSort (· ≤ ·) xs).length = xs.length :=
  (List.perm_insertionSort _ xs).length_eq

theorem sorted_getD_mono {s : List ℝ} (hs : List.Sorted (· ≤ ·) s) {i j : ℕ}
    (hij : i ≤ j) (hj : j < s.length) : s.getD i 0 ≤ s.getD j 0 := by
  have hi : i < s.length := lt_of_le_of_lt hij hj
  rw [List.getD_eq_getElem s 0 hi, List.getD_eq_getElem s 0 hj]
  rcases eq_or_lt_of_le hij with rfl | hlt
  · exact le_refl _
  · exact hs.rel_get_of_lt
      (show (⟨i, hi⟩ : Fin s.length) < (⟨j, hj⟩ : Fin s.length) from hlt)

theorem sorted_getD_succ {s : List ℝ} (hs : List.Sorted (· ≤ ·) s) (i : ℕ) :
    s.getD i 0 ≤ s.getD (i + 1) (s.getD i 0) := by
  by_cases h : i + 1 < s.length
  · rw [List.getD_eq_getElem s _ h, List.getD_eq_getElem s 0 (by omega)]
    exact hs.rel_get_of_lt
      (show (⟨i, by omega⟩ : Fin s.length) < (⟨i + 1, h⟩ : Fin s.length) from
        Nat.lt_succ_self i)
  · rw [List.getD_eq_default s (s.getD i 0) (show s.length ≤ i + 1 by omega)]

theorem interpolate_le_interpolate {s : List ℝ} (hs : List.Sorted (· ≤ ·) s)
    {h h' : ℚ} (h0 : 0 ≤ h) (hhh : h ≤ h') (hub : h' ≤ (s.length : ℚ) - 1) :
    interpolate s h ≤ interpolate s h' := by
  have h0' : 0 ≤ h' := le_trans h0 hhh
  have hn1 : (1 : ℚ) ≤ (s.length : ℚ) := by linarith
  have hn : 1 ≤ s.length := by exact_mod_cast hn1
  simp only [interpolate]
  set i : ℕ := (⌊h⌋).toNat with hi_def
  set i' : ℕ := (⌊h'⌋).toNat with hi'_def
  have hiq : (i : ℚ) = (⌊h⌋ : ℚ) := by
    exact_mod_cast Int.toNat_of_nonneg (Int.floor_nonneg.mpr h0)
  have hi'q : (i' : ℚ) = (⌊h'⌋ : ℚ) := by
    exact_mod_cast Int.toNat_of_nonneg (Int.floor_nonneg.mpr h0')
  have hile : (i : ℚ) ≤ h := by rw [hiq]; exact Int.floor_le h
  have hi'le : (i' : ℚ) ≤ h' := by rw [hi'q]; exact Int.floor_le h'
  have hfrac1 : h - (i : ℚ) < 1 := by
    rw [hiq]; have := Int.lt_floor_add_one h; linarith
  have hfrac0 : 0 ≤ h - (i : ℚ) := by linarith
  have hfrac0' : 0 ≤ h' - (i' : ℚ) := by linarith
  have hii' : i ≤ i' := Int.toNat_le_toNat (Int.floor_le_floor hhh)
  have hi'n : i' < s.length := by
    have h2 : (i' : ℚ) ≤ ((s.length - 1 : ℕ) : ℚ) := by
      rw [Nat.cast_sub hn, Nat.cast_one]; linarith
    have h3 : i' ≤ s.length - 1 := by exact_mod_cast h2
    omega
  have hin : i < s.length := lt_of_le_of_lt hii' hi'n
  have hF0 : (0 : ℝ) ≤ ((h - (i : ℚ) : ℚ) : ℝ) := by exact_mod_cast hfrac0
  have hF1 : ((h - (i : ℚ) : ℚ) : ℝ) ≤ 1 := by exact_mod_cast hfrac1.le
  have hF0' : (0 : ℝ) ≤ ((h' - (i' : ℚ) : ℚ) : ℝ) := by exact_mod_cast hfrac0'
  have ht : s.getD i 0 ≤ s.getD (i + 1) (s.getD i 0) := sorted_getD_succ hs i
  have ht' : s.getD i' 0 ≤ s.getD (i' + 1) (s.getD i' 0) := sorted_getD_succ hs i'
  rcases eq_or_lt_of_le hii' with heq | hlt
  · rw [← heq]
    have hFF : ((h - (i : ℚ) : ℚ) : ℝ) ≤ ((h' - (i : ℚ) : ℚ) : ℝ) := by
      exact_mod_cast sub_le_sub_right hhh _
    nlinarith [mul_le_mul_of_nonneg_right hFF (sub_nonneg.mpr ht)]
  · have hq1 : s.getD i 0 + ((h - (i : ℚ) : ℚ) : ℝ) *
        (s.getD (i + 1) (s.getD i 0) - s.getD i 0) ≤ s.getD (i + 1) (s.getD i 0) := by
      nlinarith [mul_le_mul_of_nonneg_right hF1 (sub_nonneg.mpr ht)]
    have hi1n : i + 1 < s.length := lt_of_le_of_lt hlt hi'n
    have ht_eq : s.getD (i + 1) (s.getD i 0) = s.getD (i + 1) 0 := by
      rw [List.getD_eq_getElem s _ hi1n, List.getD_eq_getElem s 0 hi1n]
    have hq2 : s.getD (i + 1) 0 ≤ s.getD i' 0 := sorted_getD_mono hs hlt hi'n
    have hq3 : s.getD i' 0 ≤ s.getD i' 0 + ((h' - (i' : ℚ) : ℚ) : ℝ) *
        (s.getD (i' + 1) (s.getD i' 0) - s.getD i' 0) := by
      nlinarith [mul_nonneg hF0' (sub_nonneg.mpr ht')]
    rw [ht_eq] at hq1
    rw [ht_eq]
    linarith

theorem quantile_le_quantile (xs : List ℝ) {q q' : ℚ} (h0 : 0 ≤ q) (hqq : q ≤ q')
    (h1 : q' ≤ 1) : quantile xs q ≤ quantile xs q' := by
  by_cases hnil : xs = []
  · subst hnil
    simp [quantile, interpolate, List.getD]
  · have hn : 0 < xs.length := List.length_pos.mpr hnil
    have hn1 : (0 : ℚ) ≤ (xs.length : ℚ) - 1 := by
      have : (1 : ℚ) ≤ (xs.length : ℚ) := by exact_mod_cast hn
      linarith
    apply interpolate_le_interpolate (List.sorted_insertionSort _ xs)
    · exact mul_nonneg hn1 h0
    · exact mul_le_mul_of_nonneg_left hqq hn1
    · rw [sortedList_length]
      nlinarith

theorem quantile_Q1_le_Q3 (xs : List ℝ) : quantile xs (1 / 4) ≤ quantile xs (3 / 4) :=
  quantile_le_quantile xs (by norm_num) (by norm_num) (by norm_num)

theorem lowerWhisker_le_upperWhisker (xs : List ℝ) :
    lowerWhisker xs ≤ upperWhisker xs := by
  unfold lowerWhisker upperWhisker
  linarith [quantile_Q1_le_Q3 xs]

/-- Interpolation inside a constant list yields the constant. -/
theorem interpolate_const {s : List ℝ} {c : ℝ} (hall : ∀ x ∈ s, x = c)
    (hn : 1 ≤ s.length) {h : ℚ} (h0 : 0 ≤ h) (hub : h ≤ (s.length : ℚ) - 1) :
    interpolate s h = c := by
  simp only [interpolate]
  set i : ℕ := (⌊h⌋).toNat with hi_def
  have hiq : (i : ℚ) = (⌊h⌋ : ℚ) := by
    exact_mod_cast Int.toNat_of_nonneg (Int.floor_nonneg.mpr h0)
  have hile : (i : ℚ) ≤ h := by rw [hiq]; exact Int.floor_le h
  have hin : i < s.length := by
    have h2 : (i : ℚ) ≤ ((s.length - 1 : ℕ) : ℚ) := by
      rw [Nat.cast_sub hn, Nat.cast_one]; linarith
    have h3 : i ≤ s.length - 1 := by exact_mod_cast h2
    omega
  have hgi : s.getD i 0 = c := by
    rw [List.getD_eq_getElem s 0 hin]
    exact hall _ (s.getElem_mem hin)
  have hgi1 : s.getD (i + 1) (s.getD i 0) = c := by
    by_cases h1 : i + 1 < s.length
    · rw [List.getD_eq_getElem s _ h1]
      exact hall _ (s.getElem_mem h1)
    · rw [List.getD_eq_default s (s.getD i 0) (show s.length ≤ i + 1 by omega)]
      exact hgi
  rw [hgi1, hgi]
  ring

/-- The quantile of a nonempty constant list is the constant. -/
theorem quantile_const {xs : List ℝ} {c : ℝ} (hne : xs ≠ [])
    (hall : ∀ x ∈ xs, x = c) {q : ℚ} (h0 : 0 ≤ q) (h1 : q ≤ 1) :
    quantile xs q = c := by
  have hn : 0 < xs.length := List.length_pos.mpr hne
  have hn1 : (0 : ℚ) ≤ (xs.length : ℚ) - 1 := by
    have : (1 : ℚ) ≤ (xs.length : ℚ) := by exact_mod_cast hn
    linarith
  apply interpolate_const
  · intro x hx
    exact hall x ((List.perm_insertionSort _ xs).mem_iff.mp hx)
  · rw [sortedList_length]; exact hn
  · exact mul_nonneg hn1 h0
  · rw [sortedList_length]; nlinarith

/-! ## Structural projections of the pipeline -/

theorem analyze_temps (k : Kiln) (c : ℝ) : (analyze k c).temps = k.temps := rfl

theorem analyze_radiation (k : Kiln) (c : ℝ) :
    (analyze k c).radiation = k.temps.map (fun T => k.radiationAt T / c) := rfl

theorem analyze_convection (k : Kiln) (c : ℝ) :
    (analyze k c).convection = k.temps.map (fun T => k.convectionAt T / c) := rfl

theorem analyze_losses (k : Kiln) (c : ℝ) :
    (analyze k c).losses = List.zipWith (fun a b => a + b)
      (k.temps.map (fun T => k.radiationAt T / c))
      (k.temps.map (fun T => k.convectionAt T / c)) := rfl

theorem analyze_total_loss (k : Kiln) (c : ℝ) :
    (analyze k c).total_loss = (analyze k c).losses.sum := rfl

theorem analyze_high (k : Kiln) (c : ℝ) :
    (analyze k c).high_outliers = highOutliers ((analyze k c).losses) := rfl

theorem analyze_low (k : Kiln) (c : ℝ) :
    (analyze k c).low_outliers = lowOutliers ((analyze k c).losses) := rfl

theorem analyze_repair_pos (k : Kiln) (c : ℝ)
    (h : 0 < (analyze k c).high_outliers.length) :
    (analyze k c).repair =
      some { mediantemp := mediantemp k.temps (analyze k c).high_outliers
               (analyze k c).low_outliers
             new_temps := newTemps k.temps (analyze k c).high_outliers
               (mediantemp k.temps (analyze k c).high_outliers (analyze k c).low_outliers)
             new_radiation := (newTemps k.temps (analyze k c).high_outliers
               (mediantemp k.temps (analyze k c).high_outliers
                 (analyze k c).low_outliers)).map (fun T => k.radiationAt T / c)
             new_convection := (newTemps k.temps (analyze k c).high_outliers
               (mediantemp k.temps (analyze k c).high_outliers
                 (analyze k c).low_outliers)).map (fun T => k.convectionAt T / c)
             new_losses := List.zipWith (fun a b => a + b)
               ((newTemps k.temps (analyze k c).high_outliers
                 (mediantemp k.temps (analyze k c).high_outliers
                   (analyze k c).low_outliers)).map (fun T => k.radiationAt T / c))
               ((newTemps k.temps (analyze k c).high_outliers
                 (mediantemp k.temps (analyze k c).high_outliers
                   (analyze k c).low_outliers)).map (fun T => k.convectionAt T / c))
             new_total_loss := (List.zipWith (fun a b => a + b)
               ((newTemps k.temps (analyze k c).high_outliers
                 (mediantemp k.temps (analyze k c).high_outliers
                   (analyze k c).low_outliers)).map (fun T => k.radiationAt T / c))
               ((newTemps k.temps (analyze k c).high_outliers
                 (mediantemp k.temps (analyze k c).high_outliers
                   (analyze k c).low_outliers)).map (fun T => k.convectionAt T / c))).sum
             outcome := repairOutcome k (analyze k c).high_outliers.length c
               (analyze k c).total_loss
               ((List.zipWith (fun a b => a + b)
                 ((newTemps k.temps (analyze k c).high_outliers
                   (mediantemp k.temps (analyze k c).high_outliers
                     (analyze k c).low_outliers)).map (fun T => k.radiationAt T / c))
                 ((newTemps k.temps (analyze k c).high_outliers
                   (mediantemp k.temps (analyze k c).high_outliers
                     (analyze k c).low_outliers)).map (fun T => k.convectionAt T / c))).sum) } := by
  show (if 0 < (analyze k c).high_outliers.length then _ else none) = _
  rw [if_pos h]
  rfl

theorem analyze_repair_neg (k : Kiln) (c : ℝ)
    (h : ¬ 0 < (analyze k c).high_outliers.length) :
    (analyze k c).repair = none := by
  show (if 0 < (analyze k c).high_outliers.length then _ else none) = none
  rw [if_neg h]

/-! ## Concrete evaluation helpers -/

/-- Insertion sort of a five-element list whose largest element sits at
position 3. -/
theorem sort5_swap {a b c d e : ℝ} (h1 : a < b) (h2 : b < c) (h3 : c < d) (h4 : d < e) :
    List.insertionSort (· ≤ ·) [a, b, c, e, d] = [a, b, c, d, e] := by
  simp [List.insertionSort, List.orderedInsert, h1.le, h2.le, h3.le, not_le.mpr h4]

theorem quantile5_q1 {xs : List ℝ} {a b c d e : ℝ}
    (hsort : List.insertionSort (· ≤ ·) xs = [a, b, c, d, e]) (hlen : xs.length = 5) :
    quantile xs (1 / 4) = b := by
  unfold quantile
  rw [hsort, hlen]
  rw [show (((5 : ℕ) : ℚ) - 1) * (1 / 4) = 1 by norm_num]
  simp only [interpolate]
  rw [Int.floor_one]
  norm_num [List.getD]

theorem quantile5_q3 {xs : List ℝ} {a b c d e : ℝ}
    (hsort : List.insertionSort (· ≤ ·) xs = [a, b, c, d, e]) (hlen : xs.length = 5) :
    quantile xs (3 / 4) = d := by
  unfold quantile
  rw [hsort, hlen]
  simp only [interpolate]
  rw [show (⌊(((5 : ℕ) : ℚ) - 1) * (3 / 4)⌋).toNat = 3 by
    rw [show (((5 : ℕ) : ℚ) - 1) * (3 / 4) = ((3 : ℤ) : ℚ) by norm_num, Int.floor_intCast]
    rfl]
  rw [show (((5 : ℕ) : ℚ) - 1) * (3 / 4) = 3 by norm_num]
  norm_num [List.getD]

theorem median4 {xs : List ℝ} {a b c d : ℝ}
    (hsort : List.insertionSort (· ≤ ·) xs = [a, b, c, d]) (hlen : xs.length = 4) :
    median xs = b + (1 / 2) * (c - b) := by
  unfold median quantile
  rw [hsort, hlen]
  rw [show (((4 : ℕ) : ℚ) - 1) * (1 / 2) = 3 / 2 by norm_num]
  simp only [interpolate]
  rw [show ⌊(3 / 2 : ℚ)⌋ = 1 by
    rw [Int.floor_eq_iff]
    norm_num]
  norm_num [List.getD]

theorem highOutliers_eval5 {l0 l1 l2 l3 l4 : ℝ}
    (h0 : ¬ l0 > upperWhisker [l0, l1, l2, l3, l4])
    (h1 : ¬ l1 > upperWhisker [l0, l1, l2, l3, l4])
    (h2 : ¬ l2 > upperWhisker [l0, l1, l2, l3, l4])
    (h3 : l3 > upperWhisker [l0, l1, l2, l3, l4])
    (h4 : ¬ l4 > upperWhisker [l0, l1, l2, l3, l4]) :
    highOutliers [l0, l1, l2, l3, l4] = [3] := by
  unfold highOutliers
  rw [show ([l0, l1, l2, l3, l4] : List ℝ).length = 5 from rfl,
    show List.range 5 = [0, 1, 2, 3, 4] from rfl]
  simp [List.filter_cons, List.getD, decide_eq_false h0, decide_eq_false h1,
    decide_eq_false h2, decide_eq_true h3, decide_eq_false h4]

theorem lowOutliers_eval5 {l0 l1 l2 l3 l4 : ℝ}
    (h0 : ¬ l0 < lowerWhisker [l0, l1, l2, l3, l4])
    (h1 : ¬ l1 < lowerWhisker [l0, l1, l2, l3, l4])
    (h2 : ¬ l2 < lowerWhisker [l0, l1, l2, l3, l4])
    (h3 : ¬ l3 < lowerWhisker [l0, l1, l2, l3, l4])
    (h4 : ¬ l4 < lowerWhisker [l0, l1, l2, l3, l4]) :
    lowOutliers [l0, l1, l2, l3, l4] = [] := by
  unfold lowOutliers
  rw [show ([l0, l1, l2, l3, l4] : List ℝ).length = 5 from rfl,
    show List.range 5 = [0, 1, 2, 3, 4] from rfl]
  simp [List.filter_cons, List.getD, decide_eq_false h0, decide_eq_false h1,
    decide_eq_false h2, decide_eq_false h3, decide_eq_false h4]

/-! ## The scenario kilns -/

/-- The reading at 500 K exceeds the upper whisker: the loss profile at
500 K beats `Q3 + 1.5 * IQR = 2.5 * g(415) - 1.5 * g(405)`, for any
nonnegative emissivity. -/
theorem gcombo_high {e : ℝ} (he : 0 ≤ e) :
    2.5 * gfun e 415 < gfun e 500 + 1.5 * gfun e 405 := by
  unfold gfun
  rw [show ((500 : ℝ) + 302) / 2 = 401 by norm_num,
    show (500 : ℝ) - 302 = 198 by norm_num,
    show ((405 : ℝ) + 302) / 2 = 353.5 by norm_num,
    show (405 : ℝ) - 302 = 103 by norm_num,
    show ((415 : ℝ) + 302) / 2 = 358.5 by norm_num,
    show (415 : ℝ) - 302 = 113 by norm_num]
  have hs : 0 ≤ e * STEFAN_BOLTZMANN_CONSTANT := mul_nonneg he stefan_pos.le
  nlinarith [core500_lb, core405_lb, core415_ub, hs]

/-- The reading at 400 K stays above the lower whisker
`Q1 - 1.5 * IQR = 2.5 * g(405) - 1.5 * g(415)`, for any nonnegative
emissivity. -/
theorem gcombo_low {e : ℝ} (he : 0 ≤ e) :
    2.5 * gfun e 405 ≤ gfun e 400 + 1.5 * gfun e 415 := by
  unfold gfun
  rw [show ((400 : ℝ) + 302) / 2 = 351 by norm_num,
    show (400 : ℝ) - 302 = 98 by norm_num,
    show ((405 : ℝ) + 302) / 2 = 353.5 by norm_num,
    show (405 : ℝ) - 302 = 103 by norm_num,
    show ((415 : ℝ) + 302) / 2 = 358.5 by norm_num,
    show (415 : ℝ) - 302 = 113 by norm_num]
  have hs : 0 ≤ e * STEFAN_BOLTZMANN_CONSTANT := mul_nonneg he stefan_pos.le
  nlinarith [core400_lb, core415_lb, core405_ub, hs]

theorem kilnP_diameter (e : ℝ) : (kilnP e).diameter = 4.75 := rfl

theorem kilnP_velocity (e : ℝ) : (kilnP e).ambient_velocity = 1 := rfl

theorem kilnP_ambient (e : ℝ) : (kilnP e).ambient_temp = 302 := rfl

theorem kilnP_emissivity (e : ℝ) : (kilnP e).emissivity = e := rfl

theorem kilnP_area (e : ℝ) :
    (kilnP e).section_area = Real.pi * 4.75 * ((1 : ℕ) : ℝ) := rfl

theorem kilnP_temps (e : ℝ) : (kilnP e).temps = [400, 405, 410, 500, 415] := by
  norm_num [kilnP, Kiln.make, aggTemps, df5, columnsCount, convTemp]

theorem scale_pos : 0 < scale := by
  unfold scale
  positivity

theorem kilnP_loss_at (e T : ℝ) :
    (kilnP e).radiationAt T / 290000 + (kilnP e).convectionAt T / 290000
      = scale * gfun e T := by
  unfold Kiln.radiationAt Kiln.convectionAt
  rw [kilnP_velocity, kilnP_ambient, kilnP_emissivity, kilnP_area,
    if_pos (by norm_num : (1 : ℝ) < 3)]
  unfold scale gfun
  push_cast
  ring

theorem kilnP_losses (e : ℝ) :
    (analyze (kilnP e) 290000).losses =
      [scale * gfun e 400, scale * gfun e 405, scale * gfun e 410,
        scale * gfun e 500, scale * gfun e 415] := by
  rw [analyze_losses, kilnP_temps]
  simp only [List.map_cons, List.map_nil, List.zipWith_cons_cons, List.zipWith_nil_left]
  rw [kilnP_loss_at e 400, kilnP_loss_at e 405, kilnP_loss_at e 410,
    kilnP_loss_at e 500, kilnP_loss_at e 415]

theorem kilnP_losses_sorted (e : ℝ) (he : 0 ≤ e) :
    List.insertionSort (· ≤ ·)
      [scale * gfun e 400, scale * gfun e 405, scale * gfun e 410,
        scale * gfun e 500, scale * gfun e 415]
    = [scale * gfun e 400, scale * gfun e 405, scale * gfun e 410,
        scale * gfun e 415, scale * gfun e 500] :=
  sort5_swap
    (mul_lt_mul_of_pos_left (gfun_strict_mono he (by norm_num) (by norm_num)) scale_pos)
    (mul_lt_mul_of_pos_left (gfun_strict_mono he (by norm_num) (by norm_num)) scale_pos)
    (mul_lt_mul_of_pos_left (gfun_strict_mono he (by norm_num) (by norm_num)) scale_pos)
    (mul_lt_mul_of_pos_left (gfun_strict_mono he (by norm_num) (by norm_num)) scale_pos)

theorem kilnP_upper_val (e : ℝ) (he : 0 ≤ e) :
    upperWhisker [scale * gfun e 400, scale * gfun e 405, scale * gfun e 410,
        scale * gfun e 500, scale * gfun e 415]
      = scale * gfun e 415 + 1.5 * (scale * gfun e 415 - scale * gfun e 405) := by
  unfold upperWhisker
  rw [quantile5_q3 (kilnP_losses_sorted e he) rfl, quantile5_q1 (kilnP_losses_sorted e he) rfl]

theorem kilnP_lower_val (e : ℝ) (he : 0 ≤ e) :
    lowerWhisker [scale * gfun e 400, scale * gfun e 405, scale * gfun e 410,
        scale * gfun e 500, scale * gfun e 415]
      = scale * gfun e 405 - 1.5 * (scale * gfun e 415 - scale * gfun e 405) := by
  unfold lowerWhisker
  rw [quantile5_q3 (kilnP_losses_sorted e he) rfl, quantile5_q1 (kilnP_losses_sorted e he) rfl]

theorem kilnP_high (e : ℝ) (he : 0 ≤ e) :
    (analyze (kilnP e) 290000).high_outliers = [3] := by
  have m1 : gfun e 400 < gfun e 405 := gfun_strict_mono he (by norm_num) (by norm_num)
  have m2 : gfun e 405 < gfun e 410 := gfun_strict_mono he (by norm_num) (by norm_num)
  have m3 : gfun e 410 < gfun e 415 := gfun_strict_mono he (by norm_num) (by norm_num)
  have m4 : gfun e 415 < gfun e 500 := gfun_strict_mono he (by norm_num) (by norm_num)
  have p1 := mul_lt_mul_of_pos_left m1 scale_pos
  have p2 := mul_lt_mul_of_pos_left m2 scale_pos
  have p3 := mul_lt_mul_of_pos_left m3 scale_pos
  have p4 := mul_lt_mul_of_pos_left m4 scale_pos
  have pHigh := mul_lt_mul_of_pos_left (gcombo_high he) scale_pos
  rw [analyze_high, kilnP_losses]
  refine highOutliers_eval5 ?_ ?_ ?_ ?_ ?_ <;> rw [kilnP_upper_val e he]
  · exact not_lt.mpr (by nlinarith)
  · exact not_lt.mpr (by nlinarith)
  · exact not_lt.mpr (by nlinarith)
  · nlinarith
  · exact not_lt.mpr (by nlinarith)

theorem kilnP_low (e : ℝ) (he : 0 ≤ e) :
    (analyze (kilnP e) 290000).low_outliers = [] := by
  have m1 : gfun e 400 < gfun e 405 := gfun_strict_mono he (by norm_num) (by norm_num)
  have m2 : gfun e 405 < gfun e 410 := gfun_strict_mono he (by norm_num) (by norm_num)
  have m3 : gfun e 410 < gfun e 415 := gfun_strict_mono he (by norm_num) (by norm_num)
  have m4 : gfun e 415 < gfun e 500 := gfun_strict_mono he (by norm_num) (by norm_num)
  have p1 := mul_lt_mul_of_pos_left m1 scale_pos
  have p2 := mul_lt_mul_of_pos_left m2 scale_pos
  have p3 := mul_lt_mul_of_pos_left m3 scale_pos
  have p4 := mul_lt_mul_of_pos_left m4 scale_pos
  have pLow := mul_le_mul_of_nonneg_left (gcombo_low he) scale_pos.le
  rw [analyze_low, kilnP_losses]
  refine lowOutliers_eval5 ?_ ?_ ?_ ?_ ?_ <;> rw [kilnP_lower_val e he]
  · exact not_lt.mpr (by nlinarith)
  · exact not_lt.mpr (by nlinarith)
  · exact not_lt.mpr (by nlinarith)
  · exact not_lt.mpr (by nlinarith)
  · exact not_lt.mpr (by nlinarith)

theorem kilnP_median (e : ℝ) : mediantemp (kilnP e).temps [3] [] = 407.5 := by
  rw [kilnP_temps]
  unfold mediantemp
  rw [show ([400, 405, 410, 500, 415] : List ℝ).length = 5 from rfl]
  rw [show (List.range 5).filter (fun i => i ∉ ([3] : List ℕ) ∧ i ∉ ([] : List ℕ))
      = [0, 1, 2, 4] from by decide]
  rw [show ([0, 1, 2, 4] : List ℕ).map
        (fun i => ([400, 405, 410, 500, 415] : List ℝ).getD i 0)
      = [400, 405, 410, 415] from by norm_num [List.getD]]
  rw [median4 (List.Sorted.insertionSort_eq (by norm_num [List.sorted_cons])) rfl]
  norm_num

theorem kilnP_newTemps (e m : ℝ) :
    newTemps (kilnP e).temps [3] m = [400, 405, 410, m, 415] := by
  rw [kilnP_temps]
  unfold newTemps
  rw [show ([400, 405, 410, 500, 415] : List ℝ).length = 5 from rfl,
    show List.range 5 = [0, 1, 2, 3, 4] from rfl]
  norm_num [List.getD]

theorem kilnP_new_losses (e m : ℝ) :
    List.zipWith (fun a b => a + b)
      (([400, 405, 410, m, 415] : List ℝ).map (fun T => (kilnP e).radiationAt T / 290000))
      (([400, 405, 410, m, 415] : List ℝ).map (fun T => (kilnP e).convectionAt T / 290000))
    = [scale * gfun e 400, scale * gfun e 405, scale * gfun e 410,
        scale * gfun e m, scale * gfun e 415] := by
  simp only [List.map_cons, List.map_nil, List.zipWith_cons_cons, List.zipWith_nil_left]
  rw [kilnP_loss_at e 400, kilnP_loss_at e 405, kilnP_loss_at e 410,
    kilnP_loss_at e m, kilnP_loss_at e 415]

theorem kilnP_total (e : ℝ) :
    (analyze (kilnP e) 290000).total_loss
      = scale * gfun e 400 + scale * gfun e 405 + scale * gfun e 410 +
        scale * gfun e 500 + scale * gfun e 415 := by
  rw [analyze_total_loss, kilnP_losses]
  simp [List.sum_cons]
  ring

/-- The savings branch taken: with positive savings, `repairOutcome` is the
success summary with the annualised money saved and the brick repair cost. -/
theorem repairOutcome_pos (k : Kiln) (n : ℕ) (c t nt : ℝ) (h : 0 < t - nt) :
    repairOutcome k n c t nt = RepairOutcome.success (t - nt)
      ((t - nt) * c * (330 * 24) / 4500 / 1000 * 4500)
      (((⌊3.14 * ((k.diameter * 1000 - 2 * 16) - 220) / 71.5⌋ * 5 * (n : ℤ) : ℤ)) * 100)
      ((t - nt) * c * (330 * 24) / 4500 / 1000 * 4500 -
        ((⌊3.14 * ((k.diameter * 1000 - 2 * 16) - 220) / 71.5⌋ * 5 * (n : ℤ) : ℤ)) * 100) := by
  unfold repairOutcome
  rw [if_pos h]

/-- The warning branch taken: with non-positive savings, `repairOutcome` is
the inconsistency warning. -/
theorem repairOutcome_neg (k : Kiln) (n : ℕ) (c t nt : ℝ) (h : ¬ 0 < t - nt) :
    repairOutcome k n c t nt = RepairOutcome.inconsistent := by
  unfold repairOutcome
  rw [if_neg h]

/-- The repair block of the scenario kiln, fully evaluated: the repair data
exists and its fields are the median 407.5 K, the corrected temperature
series, the recomputed losses and their sum, with the savings branch run on
one high-outlier location. -/
theorem kilnP_repair (e : ℝ) (he : 0 ≤ e) :
    ∃ r : RepairData, (analyze (kilnP e) 290000).repair = some r ∧
      r.mediantemp = 407.5 ∧
      r.new_temps = [400, 405, 410, 407.5, 415] ∧
      r.new_losses = [scale * gfun e 400, scale * gfun e 405, scale * gfun e 410,
        scale * gfun e 407.5, scale * gfun e 415] ∧
      r.new_total_loss = scale * gfun e 400 + scale * gfun e 405 + scale * gfun e 410 +
        scale * gfun e 407.5 + scale * gfun e 415 ∧
      r.outcome = repairOutcome (kilnP e) 1 290000
        ((analyze (kilnP e) 290000).total_loss) r.new_total_loss := by
  have hh := kilnP_high e he
  have hl := kilnP_low e he
  have hpos : 0 < (analyze (kilnP e) 290000).high_outliers.length := by
    rw [hh]; norm_num
  have hmed : mediantemp (kilnP e).temps (analyze (kilnP e) 290000).high_outliers
      (analyze (kilnP e) 290000).low_outliers = 407.5 := by
    rw [hh, hl]; exact kilnP_median e
  have hnt : newTemps (kilnP e).temps (analyze (kilnP e) 290000).high_outliers
      (mediantemp (kilnP e).temps (analyze (kilnP e) 290000).high_outliers
        (analyze (kilnP e) 290000).low_outliers) = [400, 405, 410, 407.5, 415] := by
    rw [hmed, hh]; exact kilnP_newTemps e 407.5
  have hnl : List.zipWith (fun a b => a + b)
      ((newTemps (kilnP e).temps (analyze (kilnP e) 290000).high_outliers
        (mediantemp (kilnP e).temps (analyze (kilnP e) 290000).high_outliers
          (analyze (kilnP e) 290000).low_outliers)).map
        (fun T => (kilnP e).radiationAt T / 290000))
      ((newTemps (kilnP e).temps (analyze (kilnP e) 290000).high_outliers
        (mediantemp (kilnP e).temps (analyze (kilnP e) 290000).high_outliers
          (analyze (kilnP e) 290000).low_outliers)).map
        (fun T => (kilnP e).convectionAt T / 290000))
      = [scale * gfun e 400, scale * gfun e 405, scale * gfun e 410,
        scale * gfun e 407.5, scale * gfun e 415] := by
    rw [hnt]; exact kilnP_new_losses e 407.5
  refine ⟨_, analyze_repair_pos _ _ hpos, hmed, hnt, hnl, ?_, ?_⟩
  · show (List.zipWith (fun a b => a + b) _ _).sum = _
    rw [hnl]
    simp [List.sum_cons]
    ring
  · show repairOutcome (kilnP e) (analyze (kilnP e) 290000).high_outliers.length 290000
        (analyze (kilnP e) 290000).total_loss _ = _
    rw [hh]
    rfl

/-! ## Frame helpers for the corrected series -/

theorem newTemps_length (temps : List ℝ) (high : List ℕ) (m : ℝ) :
    (newTemps temps high m).length = temps.length := by
  unfold newTemps
  rw [List.length_map, List.length_range]

theorem newTemps_getD {temps : List ℝ} {high : List ℕ} {m : ℝ} {i : ℕ}
    (hi : i < temps.length) :
    (newTemps temps high m).getD i 0 = if i ∈ high then m else temps.getD i 0 := by
  unfold newTemps
  rw [List.getD_eq_getElem _ _ (by
    rw [List.length_map, List.length_range]; exact hi)]
  simp

theorem map_getD_lt (f : ℝ → ℝ) {l : List ℝ} {i : ℕ} (hi : i < l.length) :
    (l.map f).getD i 0 = f (l.getD i 0) := by
  rw [List.getD_eq_getElem _ _ (by rw [List.length_map]; exact hi),
    List.getD_eq_getElem _ _ hi]
  simp

theorem zipWith_add_getD {l1 l2 : List ℝ} {i : ℕ}
    (h1 : i < l1.length) (h2 : i < l2.length) :
    (List.zipWith (fun a b => a + b) l1 l2).getD i 0 = l1.getD i 0 + l2.getD i 0 := by
  rw [List.getD_eq_getElem _ _ (by rw [List.length_zipWith]; omega),
    List.getD_eq_getElem _ _ h1, List.getD_eq_getElem _ _ h2]
  simp

/-! ## A spike series: IQR is zero yet a high outlier exists -/

theorem spike_sorted :
    List.insertionSort (· ≤ ·) ([0, 0, 0, 0, 100] : List ℝ) = [0, 0, 0, 0, 100] :=
  List.Sorted.insertionSort_eq (by norm_num [List.sorted_cons])

theorem spike_Q1 : quantile ([0, 0, 0, 0, 100] : List ℝ) (1 / 4) = 0 :=
  quantile5_q1 spike_sorted rfl

theorem spike_Q3 : quantile ([0, 0, 0, 0, 100] : List ℝ) (3 / 4) = 0 :=
  quantile5_q3 spike_sorted rfl

theorem spike_upper : upperWhisker ([0, 0, 0, 0, 100] : List ℝ) = 0 := by
  unfold upperWhisker
  rw [spike_Q1, spike_Q3]
  ring

theorem spike_lower : lowerWhisker ([0, 0, 0, 0, 100] : List ℝ) = 0 := by
  unfold lowerWhisker
  rw [spike_Q1, spike_Q3]
  ring

theorem spike_high : highOutliers ([0, 0, 0, 0, 100] : List ℝ) = [4] := by
  have e0 : ¬ ((0 : ℝ) > upperWhisker [0, 0, 0, 0, 100]) := by
    rw [spike_upper]; norm_num
  have e4 : (100 : ℝ) > upperWhisker [0, 0, 0, 0, 100] := by
    rw [spike_upper]; norm_num
  unfold highOutliers
  rw [show ([0, 0, 0, 0, 100] : List ℝ).length = 5 from rfl,
    show List.range 5 = [0, 1, 2, 3, 4] from rfl]
  simp [List.filter_cons, List.getD, decide_eq_false e0, decide_eq_true e4]

theorem spike_low : lowOutliers ([0, 0, 0, 0, 100] : List ℝ) = [] := by
  have e0 : ¬ ((0 : ℝ) < lowerWhisker [0, 0, 0, 0, 100]) := by
    rw [spike_lower]; norm_num
  have e4 : ¬ ((100 : ℝ) < lowerWhisker [0, 0, 0, 0, 100]) := by
    rw [spike_lower]; norm_num
  unfold lowOutliers
  rw [show ([0, 0, 0, 0, 100] : List ℝ).length = 5 from rfl,
    show List.range 5 = [0, 1, 2, 3, 4] from rfl]
  simp [List.filter_cons, List.getD, decide_eq_false e0, decide_eq_false e4]

/-! ## Claims -/

/-- C1 (counterexample): at diameter 4.85 m the cost computed by the code,
which uses the constant `3.14` (floor 201), differs from the cost the claim
states with the exact constant pi (floor 202). -/
theorem c1_pi_floor_differs :
    (repairOutcome kilnC1 1 1 2 1).repairCost = some (((201 * 5 * 1 : ℤ) : ℝ) * 100) ∧
    (((201 * 5 * 1 : ℤ) : ℝ) * 100) ≠ repairCostSpec kilnC1 1 := by
  have hd : kilnC1.diameter = 4.85 := rfl
  have hfloor1 : ⌊3.14 * (((4.85 : ℝ) * 1000 - 2 * 16) - 220) / 71.5⌋ = 201 := by
    rw [Int.floor_eq_iff]
    norm_num
  have hfloor2 : ⌊Real.pi * (((4.85 : ℝ) * 1000 - 2 * 16) - 220) / 71.5⌋ = 202 := by
    rw [show (((4.85 : ℝ) * 1000 - 2 * 16) - 220) = 4598 by norm_num]
    rw [Int.floor_eq_iff]
    constructor
    · push_cast
      rw [le_div_iff₀ (by norm_num : (0 : ℝ) < 71.5)]
      nlinarith [Real.pi_gt_d6]
    · push_cast
      rw [div_lt_iff₀ (by norm_num : (0 : ℝ) < 71.5)]
      nlinarith [Real.pi_lt_d6]
  constructor
  · rw [repairOutcome_pos kilnC1 1 1 2 1 (by norm_num), RepairOutcome.repairCost,
      hd, hfloor1]
    push_cast
    norm_num
  · unfold repairCostSpec
    rw [hd, hfloor2]
    push_cast
    norm_num

/-- C1 (amended): when high outliers exist and the savings are positive, the
repair cost is `floor(3.14 * (internalDiameterMm - 220) / 71.5) * 5 *
highOutlierCount * 100` rupees, with `internalDiameterMm = diameterM * 1000
- 2 * 16` — the source uses the constant `3.14`, not the exact pi of the
claim. -/
theorem c1_repair_cost_uses_314 (k : Kiln) (n : ℕ) (c t nt : ℝ) (h : 0 < t - nt) :
    (repairOutcome k n c t nt).repairCost =
      some ((((⌊3.14 * ((k.diameter * 1000 - 2 * 16) - 220) / 71.5⌋ * 5 * (n : ℤ)) : ℤ) : ℝ) * 100) := by
  rw [repairOutcome_pos k n c t nt h]
  rfl

/-- Witness for C1 at a concrete kiln and positive savings. -/
theorem c1_repair_cost_uses_314_witness :
    (0 : ℝ) < 2 - 1 ∧
    (repairOutcome kiln0 1 1 2 1).repairCost =
      some ((((⌊3.14 * ((kiln0.diameter * 1000 - 2 * 16) - 220) / 71.5⌋ * 5 * ((1 : ℕ) : ℤ)) : ℤ) : ℝ) * 100) :=
  ⟨by norm_num, c1_repair_cost_uses_314 kiln0 1 1 2 1 (by norm_num)⟩

/-- C2 (counterexample): at 300 K, below the ambient 302 K and in the
natural-convection regime, the code raises nothing: the convection value is
computed unconditionally, unlike the DomainError the claim states (model
`Kiln.convectionSpec`). -/
theorem c2_subambient_no_error :
    (300 : ℝ) < kiln0.ambient_temp ∧ kiln0.ambient_velocity < 3 ∧
    Kiln.convectionE kiln0 300 = Except.ok (kiln0.convectionAt 300) ∧
    Kiln.convectionE kiln0 300 ≠ Kiln.convectionSpec kiln0 300 := by
  refine ⟨by norm_num [kiln0], by norm_num [kiln0], rfl, ?_⟩
  unfold Kiln.convectionE Kiln.convectionSpec
  rw [if_pos ⟨(by norm_num [kiln0] : (300 : ℝ) < kiln0.ambient_temp),
    (by norm_num [kiln0] : kiln0.ambient_velocity < 3)⟩]
  simp

/-- C2 (amended): the convection computation never surfaces an error for
any temperature; for `T < Tambient` the original silently produces NaN
(undefined in real arithmetic), which the caller must avoid. -/
theorem c2_no_domain_error (k : Kiln) (T : ℝ) (err : PipeError) :
    Kiln.convectionE k T ≠ Except.error err := by
  unfold Kiln.convectionE
  simp

/-- C3 (counterexample): a matrix with zero columns is aggregated without
any error — no `ConfigError` is raised, unlike the claim (model
`aggTempsSpec`). -/
theorem c3_zero_columns_no_error :
    columnsCount ([] : List (List ℝ)) = 0 ∧
    aggTempsE TempUnit.kelvin [] ≠ Except.error PipeError.configError ∧
    aggTempsE TempUnit.kelvin [] ≠ aggTempsSpec TempUnit.kelvin [] := by
  refine ⟨rfl, ?_, ?_⟩
  · unfold aggTempsE
    simp
  · unfold aggTempsE aggTempsSpec
    rw [if_pos (show columnsCount ([] : List (List ℝ)) = 0 from rfl)]
    simp

/-- C3 (amended): the reading aggregation performs no validation: it never
fails, for any column count and any numeric matrix, and produces one
temperature per input row. -/
theorem c3_aggregation_never_fails (u : TempUnit) (df : List (List ℝ)) (err : PipeError) :
    aggTempsE u df ≠ Except.error err ∧
    ∃ ts : List ℝ, aggTempsE u df = Except.ok ts ∧ ts.length = df.length := by
  refine ⟨by unfold aggTempsE; simp, aggTemps u df, rfl, ?_⟩
  unfold aggTemps
  rw [List.length_map]

/-- C4: when high outliers exist, the corrected temperature series agrees
with the original at every index outside the high-outlier set (low-outlier
indices included), and equals the median of the temperatures excluding both
outlier sets exactly at the high-outlier indices. -/
theorem c4_only_high_indices_replaced (temps : List ℝ) (high low : List ℕ) (i : ℕ)
    (hne : high ≠ []) (hi : i < temps.length) :
    (i ∉ high → (newTemps temps high (mediantemp temps high low)).getD i 0
      = temps.getD i 0) ∧
    (i ∈ high → (newTemps temps high (mediantemp temps high low)).getD i 0
      = mediantemp temps high low) := by
  constructor
  · intro hmem
    rw [newTemps_getD hi, if_neg hmem]
  · intro hmem
    rw [newTemps_getD hi, if_pos hmem]

/-- Witness for C4 at a concrete three-location series with one high
outlier. -/
theorem c4_only_high_indices_replaced_witness :
    (([1] : List ℕ) ≠ []) ∧ 0 < ([1, 2, 3] : List ℝ).length ∧
    ((0 ∉ ([1] : List ℕ) →
      (newTemps [1, 2, 3] [1] (mediantemp [1, 2, 3] [1] [])).getD 0 0
        = ([1, 2, 3] : List ℝ).getD 0 0) ∧
     (0 ∈ ([1] : List ℕ) →
      (newTemps [1, 2, 3] [1] (mediantemp [1, 2, 3] [1] [])).getD 0 0
        = mediantemp [1, 2, 3] [1] [])) :=
  ⟨by simp, by simp,
    c4_only_high_indices_replaced [1, 2, 3] [1] [] 0 (by simp) (by simp)⟩

/-- C5: the repair step yields the inconsistency warning exactly when the
savings are not positive; in that case no repair cost is computed (the
warning outcome carries none); and the pipeline always completes, producing
repair data exactly when high outliers exist, whatever the outcome. -/
theorem c5_warning_iff_nonpositive_savings (k : Kiln) (n : ℕ) (c t nt : ℝ) :
    ((repairOutcome k n c t nt = RepairOutcome.inconsistent) ↔ t - nt ≤ 0) ∧
    ((repairOutcome k n c t nt).repairCost = none ↔ t - nt ≤ 0) ∧
    ((analyze k c).repair.isSome = true ↔ 0 < (analyze k c).high_outliers.length) := by
  refine ⟨?_, ?_, ?_⟩
  · by_cases h : 0 < t - nt
    · rw [repairOutcome_pos k n c t nt h]
      exact iff_of_false (by simp) (by linarith)
    · rw [repairOutcome_neg k n c t nt h]
      exact iff_of_true rfl (by linarith [not_lt.mp h])
  · by_cases h : 0 < t - nt
    · rw [repairOutcome_pos k n c t nt h]
      exact iff_of_false (by simp [RepairOutcome.repairCost]) (by linarith)
    · rw [repairOutcome_neg k n c t nt h]
      exact iff_of_true rfl (by linarith [not_lt.mp h])
  · by_cases h : 0 < (analyze k c).high_outliers.length
    · rw [analyze_repair_pos k c h]
      simp [h]
    · rw [analyze_repair_neg k c h]
      simp [h]

/-- C6: on the spec scenario (five locations, interval 1, readings
[400, 405, 410, 500, 415] K, ambient 302 K, diameter 4.75, velocity 1,
emissivity 0.77, clinker production 290000), exactly location index 3 is
flagged as a high outlier, its corrected temperature is the median 407.5 K
of the remaining four readings, and the corrected total loss is strictly
below the original. -/
theorem c6_scenario_500K_outlier :
    (analyze kiln6 290000).high_outliers = [3] ∧
    ∃ r : RepairData, (analyze kiln6 290000).repair = some r ∧
      r.new_temps.getD 3 0 = 407.5 ∧ r.mediantemp = 407.5 ∧
      r.new_total_loss < (analyze kiln6 290000).total_loss := by
  have he : (0 : ℝ) ≤ 0.77 := by norm_num
  constructor
  · exact kilnP_high 0.77 he
  · obtain ⟨r, hr, hm, ht, hl, htot, hout⟩ := kilnP_repair 0.77 he
    refine ⟨r, hr, ?_, hm, ?_⟩
    · rw [ht]
      norm_num [List.getD]
    · show r.new_total_loss < (analyze (kilnP 0.77) 290000).total_loss
      rw [htot, kilnP_total 0.77]
      have hmono : gfun 0.77 407.5 < gfun 0.77 500 :=
        gfun_strict_mono he (by norm_num) (by norm_num)
      nlinarith [mul_lt_mul_of_pos_left hmono scale_pos]

/-- C7: for every series of total-loss values, the high-outlier index set
and the low-outlier index set are disjoint. -/
theorem c7_outlier_sets_disjoint (losses : List ℝ) (i : ℕ)
    (hmem : i ∈ highOutliers losses) : i ∉ lowOutliers losses := by
  intro hlow
  have h1 : losses.getD i 0 > upperWhisker losses := by
    have := List.mem_filter.mp hmem
    simpa using this.2
  have h2 : losses.getD i 0 < lowerWhisker losses := by
    have := List.mem_filter.mp hlow
    simpa using this.2
  have := lowerWhisker_le_upperWhisker losses
  linarith

/-- Witness for C7 on a series that actually has a high outlier. -/
theorem c7_outlier_sets_disjoint_witness :
    4 ∈ highOutliers ([0, 0, 0, 0, 100] : List ℝ) ∧
    4 ∉ lowOutliers ([0, 0, 0, 0, 100] : List ℝ) :=
  ⟨by rw [spike_high]; simp,
    c7_outlier_sets_disjoint [0, 0, 0, 0, 100] 4 (by rw [spike_high]; simp)⟩

/-- C8 (counterexample): the series [0, 0, 0, 0, 100] has IQR = 0 (Q1 = Q3
= 0), yet its high-outlier set is not empty: index 4 is flagged. The claim
holds only for constant series, not for every series with IQR = 0. -/
theorem c8_iqr_zero_spike_outlier :
    quantile ([0, 0, 0, 0, 100] : List ℝ) (3 / 4)
      - quantile ([0, 0, 0, 0, 100] : List ℝ) (1 / 4) = 0 ∧
    highOutliers ([0, 0, 0, 0, 100] : List ℝ) = [4] :=
  ⟨by rw [spike_Q1, spike_Q3]; ring, spike_high⟩

/-- C8 (amended): for every nonempty series all of whose values are equal,
both outlier sets are empty. -/
theorem c8_constant_series_no_outliers (xs : List ℝ) (c : ℝ) (hne : xs ≠ [])
    (hall : ∀ x ∈ xs, x = c) :
    highOutliers xs = [] ∧ lowOutliers xs = [] := by
  have hq1 : quantile xs (1 / 4) = c := quantile_const hne hall (by norm_num) (by norm_num)
  have hq3 : quantile xs (3 / 4) = c := quantile_const hne hall (by norm_num) (by norm_num)
  have hu : upperWhisker xs = c := by
    unfold upperWhisker; rw [hq1, hq3]; ring
  have hl : lowerWhisker xs = c := by
    unfold lowerWhisker; rw [hq1, hq3]; ring
  have hval : ∀ i ∈ List.range xs.length, xs.getD i 0 = c := by
    intro i hi
    rw [List.getD_eq_getElem _ _ (List.mem_range.mp hi)]
    exact hall _ (xs.getElem_mem _)
  constructor
  · unfold highOutliers
    rw [List.filter_eq_nil_iff]
    intro i hi
    rw [hval i hi, hu]
    simp
  · unfold lowOutliers
    rw [List.filter_eq_nil_iff]
    intro i hi
    rw [hval i hi, hl]
    simp

/-- Witness for C8 on a concrete constant series. -/
theorem c8_constant_series_no_outliers_witness :
    (([5, 5] : List ℝ) ≠ []) ∧ (∀ x ∈ ([5, 5] : List ℝ), x = 5) ∧
    (highOutliers ([5, 5] : List ℝ) = [] ∧ lowOutliers ([5, 5] : List ℝ) = []) :=
  ⟨by simp, by intro x hx; fin_cases hx <;> rfl,
    c8_constant_series_no_outliers [5, 5] 5 (by simp)
      (by intro x hx; fin_cases hx <;> rfl)⟩

/-- C9: the recomputed per-location radiation, convection and total loss of
the repair step agree with the original loss estimate at every index
outside the high-outlier set, because the physics is pure and those
temperatures are unchanged. -/
theorem c9_unchanged_indices_same_loss (k : Kiln) (clinker : ℝ) (r : RepairData)
    (i : ℕ) (hr : (analyze k clinker).repair = some r) (hi : i < k.temps.length)
    (hmem : i ∉ (analyze k clinker).high_outliers) :
    r.new_radiation.getD i 0 = (analyze k clinker).radiation.getD i 0 ∧
    r.new_convection.getD i 0 = (analyze k clinker).convection.getD i 0 ∧
    r.new_losses.getD i 0 = (analyze k clinker).losses.getD i 0 := by
  by_cases hpos : 0 < (analyze k clinker).high_outliers.length
  · rw [analyze_repair_pos k clinker hpos] at hr
    have hrec := Option.some.inj hr
    subst hrec
    have htmp : (newTemps k.temps (analyze k clinker).high_outliers
        (mediantemp k.temps (analyze k clinker).high_outliers
          (analyze k clinker).low_outliers)).getD i 0 = k.temps.getD i 0 := by
      rw [newTemps_getD hi, if_neg hmem]
    have hlen : i < (newTemps k.temps (analyze k clinker).high_outliers
        (mediantemp k.temps (analyze k clinker).high_outliers
          (analyze k clinker).low_outliers)).length := by
      rw [newTemps_length]; exact hi
    refine ⟨?_, ?_, ?_⟩
    · show ((newTemps _ _ _).map (fun T => k.radiationAt T / clinker)).getD i 0 = _
      rw [map_getD_lt _ hlen, htmp, analyze_radiation, map_getD_lt _ hi]
    · show ((newTemps _ _ _).map (fun T => k.convectionAt T / clinker)).getD i 0 = _
      rw [map_getD_lt _ hlen, htmp, analyze_convection, map_getD_lt _ hi]
    · show (List.zipWith (fun a b => a + b)
          ((newTemps _ _ _).map (fun T => k.radiationAt T / clinker))
          ((newTemps _ _ _).map (fun T => k.convectionAt T / clinker))).getD i 0 = _
      rw [zipWith_add_getD (by rw [List.length_map]; exact hlen)
          (by rw [List.length_map]; exact hlen),
        map_getD_lt _ hlen, map_getD_lt _ hlen, htmp, analyze_losses,
        zipWith_add_getD (by rw [List.length_map]; exact hi)
          (by rw [List.length_map]; exact hi),
        map_getD_lt _ hi, map_getD_lt _ hi]
  · rw [analyze_repair_neg k clinker hpos] at hr
    exact absurd hr (by simp)

/-- Witness for C9 at index 0 of the spec scenario kiln. -/
theorem c9_unchanged_indices_same_loss_witness :
    (analyze kiln6 290000).repair = some (repairD (analyze kiln6 290000)) ∧
    0 < kiln6.temps.length ∧ 0 ∉ (analyze kiln6 290000).high_outliers ∧
    ((repairD (analyze kiln6 290000)).new_radiation.getD 0 0
        = (analyze kiln6 290000).radiation.getD 0 0 ∧
      (repairD (analyze kiln6 290000)).new_convection.getD 0 0
        = (analyze kiln6 290000).convection.getD 0 0 ∧
      (repairD (analyze kiln6 290000)).new_losses.getD 0 0
        = (analyze kiln6 290000).losses.getD 0 0) := by
  have he : (0 : ℝ) ≤ 0.77 := by norm_num
  obtain ⟨r, hr, -⟩ := kilnP_repair 0.77 he
  have hsome : (analyze kiln6 290000).repair = some (repairD (analyze kiln6 290000)) := by
    show (analyze (kilnP 0.77) 290000).repair
      = some (repairD (analyze (kilnP 0.77) 290000))
    unfold repairD
    rw [hr]
    rfl
  have hlen : 0 < kiln6.temps.length := by
    show 0 < (kilnP 0.77).temps.length
    rw [kilnP_temps]
    norm_num
  have hmem : 0 ∉ (analyze kiln6 290000).high_outliers := by
    show 0 ∉ (analyze (kilnP 0.77) 290000).high_outliers
    rw [kilnP_high 0.77 he]
    simp
  exact ⟨hsome, hlen, hmem,
    c9_unchanged_indices_same_loss kiln6 290000 (repairD (analyze kiln6 290000)) 0
      hsome hlen hmem⟩

/-- C10: a valid input on which the repair step reports a plain success
although the net annual figure is negative: with emissivity 0 the scenario
kiln keeps its high outlier and positive savings, but the money saved per
year stays below the repair cost, and no warning is raised. -/
theorem c10_negative_net_still_success :
    (analyze kiln10 290000).high_outliers ≠ [] ∧
    ∃ r : RepairData, (analyze kiln10 290000).repair = some r ∧
      ∃ s mo rc net : ℝ, r.outcome = RepairOutcome.success s mo rc net ∧
        0 < s ∧ net < 0 := by
  have he : (0 : ℝ) ≤ 0 := le_refl 0
  have hg500 : gfun 0 500 = 80.33 * ((401 : ℝ) ^ (-0.724 : ℝ) * (198 : ℝ) ^ (1.333 : ℝ)) := by
    unfold gfun
    rw [show ((500 : ℝ) + 302) / 2 = 401 by norm_num,
      show (500 : ℝ) - 302 = 198 by norm_num]
    ring
  have hg4075 : gfun 0 407.5
      = 80.33 * ((354.75 : ℝ) ^ (-0.724 : ℝ) * (105.5 : ℝ) ^ (1.333 : ℝ)) := by
    unfold gfun
    rw [show ((407.5 : ℝ) + 302) / 2 = 354.75 by norm_num,
      show (407.5 : ℝ) - 302 = 105.5 by norm_num]
    ring
  have hmono : gfun 0 407.5 < gfun 0 500 :=
    gfun_strict_mono he (by norm_num) (by norm_num)
  constructor
  · show (analyze (kilnP 0) 290000).high_outliers ≠ []
    rw [kilnP_high 0 he]
    simp
  · obtain ⟨r, hr, hm, ht, hl, htot, hout⟩ := kilnP_repair 0 he
    have hsave : 0 < (analyze (kilnP 0) 290000).total_loss - r.new_total_loss := by
      rw [htot, kilnP_total 0]
      nlinarith [mul_lt_mul_of_pos_left hmono scale_pos]
    rw [repairOutcome_pos (kilnP 0) 1 290000 _ _ hsave] at hout
    refine ⟨r, hr, _, _, _, _, hout, hsave, ?_⟩
    have hdiff : (analyze (kilnP 0) 290000).total_loss - r.new_total_loss
        = scale * (gfun 0 500 - gfun 0 407.5) := by
      rw [htot, kilnP_total 0]
      ring
    have hfloor : ⌊3.14 * (((kilnP 0).diameter * 1000 - 2 * 16) - 220) / 71.5⌋ = 197 := by
      rw [kilnP_diameter]
      rw [Int.floor_eq_iff]
      norm_num
    have hmoney : (analyze (kilnP 0) 290000).total_loss - r.new_total_loss
        = scale * (gfun 0 500 - gfun 0 407.5) := hdiff
    rw [hdiff, hfloor]
    have hdeltaub : gfun 0 500 - gfun 0 407.5 ≤ 80.33 * (1153 / 76.5 - 496 / 70.3) := by
      rw [hg500, hg4075]
      nlinarith [core500_ub, core4075_lb]
    have hdelta0 : 0 < gfun 0 500 - gfun 0 407.5 := sub_pos.mpr hmono
    have hpiu : Real.pi < 3.15 := Real.pi_lt_d2
    have hmoneyeq : scale * (gfun 0 500 - gfun 0 407.5) * 290000 * (330 * 24)
          / 4500 / 1000 * 4500
        = Real.pi * (4.75 * 7.92 * (gfun 0 500 - gfun 0 407.5)) := by
      unfold scale
      ring
    rw [hmoneyeq]
    push_cast
    have hstep : Real.pi * (4.75 * 7.92 * (gfun 0 500 - gfun 0 407.5))
        ≤ 3.15 * (4.75 * 7.92 * (gfun 0 500 - gfun 0 407.5)) := by
      apply mul_le_mul_of_nonneg_right hpiu.le
      nlinarith [hdelta0]
    nlinarith [hdeltaub, hdelta0, hstep]

end HeatSim
